import Mathlib

/-
Shallow embedding of the kgworkflow core (src/src/kgworkflow/helpers):
ttl_helper.py, reasoner_helper.py and sparql_helper.py. External engines
(rdflib's Turtle parser/serializer and SPARQL processor, the ROBOT reasoner
subprocess, the filesystem) are modelled as explicit oracle parameters or as
small executable models of their documented behavior; the repository's own
Python code is translated line by line.
-/

set_option autoImplicit false

namespace KG

/-- RDF term as used by the helpers: an IRI (rdflib URIRef), a blank node
(rdflib BNode identifier), or a literal carrying a lexical form, an optional
datatype IRI and an optional language tag (rdflib Literal). -/
inductive RDFTerm where
  | iri : String → RDFTerm
  | bnode : String → RDFTerm
  | lit : String → Option String → Option String → RDFTerm
deriving DecidableEq, Repr

/-- Graph state: the triple set (as a list of subject/predicate/object
triples) together with the namespace bindings of its NamespaceManager,
an ordered list of (prefix, IRI stem) pairs. -/
structure Graph where
  triples : List (RDFTerm × RDFTerm × RDFTerm)
  bindings : List (String × String)
deriving DecidableEq, Repr

/-- Graph() — a freshly constructed empty rdflib graph. -/
def emptyGraph : Graph := { triples := [], bindings := [] }

/-- Python-side scalar value living in a pandas DataFrame cell: None, a
native int or bool (from Literal.toPython), a str, or an rdflib URIRef that
get_value passed through unchanged. -/
inductive PyVal where
  | pynone : PyVal
  | pyint : Int → PyVal
  | pybool : Bool → PyVal
  | pystr : String → PyVal
  | pyuri : String → PyVal
deriving DecidableEq, Repr

/-- XML Schema integer datatype IRI. -/
def xsdInteger : String := "http://www.w3.org/2001/XMLSchema#integer"

/-- XML Schema boolean datatype IRI. -/
def xsdBoolean : String := "http://www.w3.org/2001/XMLSchema#boolean"

/-- Decimal digit value of a character, if it is a digit. -/
def digitVal? (c : Char) : Option Nat :=
  if c = '0' then some 0 else if c = '1' then some 1 else if c = '2' then some 2
  else if c = '3' then some 3 else if c = '4' then some 4 else if c = '5' then some 5
  else if c = '6' then some 6 else if c = '7' then some 7 else if c = '8' then some 8
  else if c = '9' then some 9 else Option.none

/-- Accumulate a decimal number over a digit list; fails on a non-digit. -/
def lexNatAux : List Char → Nat → Option Nat
  | [], acc => some acc
  | c :: cs, acc =>
    match digitVal? c with
    | some d => lexNatAux cs (acc * 10 + d)
    | Option.none => Option.none

/-- Models the xsd:integer lexical-to-value mapping used by rdflib's
Literal.toPython (Python int() over an optional sign and decimal digits);
an ill-formed lexical form has no value. -/
def lexToInt? (s : String) : Option Int :=
  match s.toList with
  | [] => Option.none
  | '-' :: cs =>
    match cs with
    | [] => Option.none
    | _ => (lexNatAux cs 0).map (fun n => -(n : Int))
  | cs => (lexNatAux cs 0).map (fun n => (n : Int))

/-- Models rdflib's Literal.toPython / BNode.toPython for the datatypes the
claims exercise: an integer-datatyped literal with a well-formed lexical form
yields a native int, a boolean-datatyped literal a native bool, a literal with
no datatype (or an unmapped datatype, or an ill-formed lexical form) stays a
string; a BNode yields its identifier string. -/
def toPython : RDFTerm → PyVal
  | .bnode b => .pystr b
  | .iri u => .pyuri u
  | .lit lex dt _ =>
    match dt with
    | Option.none => .pystr lex
    | some d =>
      if d = xsdInteger then
        match lexToInt? lex with
        | some i => .pyint i
        | Option.none => .pystr lex
      else if d = xsdBoolean then
        if lex = "true" ∨ lex = "1" then .pybool true
        else if lex = "false" ∨ lex = "0" then .pybool false
        else .pystr lex
      else .pystr lex

/-- sparql_helper.get_value (inner function of sparql_result_to_df): None is
kept as None, a URIRef is kept as-is, anything else is sent through
toPython(). -/
def get_value : Option RDFTerm → PyVal
  | Option.none => .pynone
  | some (.iri u) => .pyuri u
  | some t => toPython t

/-- Models rdflib's split_uri for ordinary hash- or slash-delimited IRIs:
split after the last '#' or '/', requiring a nonempty local part; an IRI with
no such delimiter, or ending in the delimiter, cannot be split. -/
def splitUri (u : String) : Option (String × String) :=
  let cs := u.toList
  match cs.reverse.findIdx? (fun c => c == '#' || c == '/') with
  | Option.none => Option.none
  | some k =>
    if k = 0 then Option.none
    else some ((cs.take (cs.length - k)).asString, (cs.drop (cs.length - k)).asString)

/-- Models the rdflib store's reverse lookup store.prefix(namespace): the
first binding whose stem equals the namespace, if any. -/
def pfxFor (nsm : List (String × String)) (ns : String) : Option String :=
  (nsm.find? (fun pq => pq.2 == ns)).map Prod.fst

/-- Models rdflib NamespaceManager.normalizeUri: if the IRI splits into a
stem bound to some prefix p, return the qname form p ++ ":" ++ local;
otherwise return the IRI wrapped in angle brackets. -/
def normalizeUri (nsm : List (String × String)) (u : String) : String :=
  match splitUri u with
  | Option.none => "<" ++ u ++ ">"
  | some nsl =>
    match pfxFor nsm nsl.1 with
    | Option.none => "<" ++ u ++ ">"
    | some p => p ++ ":" ++ nsl.2

/-- sparql_helper.normalize_uris' inner convert_uri: a URIRef cell is
replaced by nsm.normalizeUri(val) (a string); every other cell is returned
unmodified. -/
def convert_uri (nsm : List (String × String)) (v : PyVal) : PyVal :=
  match v with
  | .pyuri u => .pystr (normalizeUri nsm u)
  | w => w

/-- Pandas DataFrame as produced by the helpers: an ordered column list and
a list of rows of cells. -/
structure DataFrame where
  columns : List String
  rows : List (List PyVal)
deriving DecidableEq, Repr

/-- sparql_helper.normalize_uris: df.map(convert_uri), columns untouched. -/
def normalize_uris (df : DataFrame) (nsm : List (String × String)) : DataFrame :=
  { columns := df.columns, rows := df.rows.map (fun r => r.map (convert_uri nsm)) }

/-- rdflib SPARQL Result for a SELECT or ASK query: the projected variables
in the order declared by the query's SELECT clause (Result.vars), the binding
rows, each an association list from variable name to term in whatever
internal order the engine produced, and the ASK answer. -/
structure SPARQLResult where
  vars : List String
  bindings : List (List (String × RDFTerm))
  askAnswer : Bool
deriving DecidableEq, Repr

/-- Lookup of a variable in one binding row (dict access values.get(v) used
by rdflib's ResultRow construction). -/
def lookupVar (b : List (String × RDFTerm)) (v : String) : Option RDFTerm :=
  (b.find? (fun pq => pq.1 == v)).map Prod.snd

/-- sparql_helper.sparql_result_to_df: pandas DataFrame whose columns are
results.vars (stringified, in declared order) and whose rows iterate each
ResultRow; rdflib builds every ResultRow as the tuple of values.get(v) for v
in result.vars, so each row's cells follow the declared variable order and
each cell goes through get_value. -/
def sparql_result_to_df (results : SPARQLResult) : DataFrame :=
  { columns := results.vars,
    rows := results.bindings.map (fun b => results.vars.map (fun v => get_value (lookupVar b v))) }

/-- Error values raised by the helpers: UserException(message) optionally
chained to an underlying exception's text (raise ... from ex), a bare
Exception(message), or a foreign library exception propagated unwrapped. -/
inductive KgError where
  | userException : String → Option String → KgError
  | exception : String → KgError
  | foreign : String → KgError
deriving DecidableEq, Repr

/-- Outcome of sparql_ask: the returned boolean or the raised error, together
with the lines written to the logger on the failure path. -/
structure AskOutcome where
  result : Except KgError Bool
  log : List String
deriving Repr

/-- sparql_helper.sparql_ask: graph.query(sparql) via the engine oracle; on
any engine exception, log the exception and the query and raise
UserException("The SPARQL query failed to execute.") from it; on success
return result.askAnswer. -/
def sparql_ask (engine : Graph → String → Except String SPARQLResult)
    (graph : Graph) (sparql : String) : AskOutcome :=
  match engine graph sparql with
  | .error ex =>
    { result := .error (.userException "The SPARQL query failed to execute." (some ex)),
      log := [ex, "\r\n" ++ sparql] }
  | .ok result => { result := .ok result.askAnswer, log := [] }

/-- Return value of sparql_select: a pandas DataFrame (to_df = true) or the
raw rdflib query Result (to_df = false). -/
inductive SelectReturn where
  | dataframe : DataFrame → SelectReturn
  | raw : SPARQLResult → SelectReturn
deriving DecidableEq, Repr

/-- Outcome of sparql_select: returned value or raised error, plus logging. -/
structure SelectOutcome where
  result : Except KgError SelectReturn
  log : List String
deriving Repr

/-- sparql_helper.sparql_select: graph.query(sparql) via the engine oracle;
engine exceptions are logged and wrapped exactly as in sparql_ask; on success,
if to_df then normalize_uris(sparql_result_to_df(result), graph's namespace
manager) else the raw result unchanged. -/
def sparql_select (engine : Graph → String → Except String SPARQLResult)
    (graph : Graph) (sparql : String) (to_df : Bool) : SelectOutcome :=
  match engine graph sparql with
  | .error ex =>
    { result := .error (.userException "The SPARQL query failed to execute." (some ex)),
      log := [ex, "\r\n" ++ sparql] }
  | .ok sparql_result =>
    if to_df then
      { result := .ok (.dataframe (normalize_uris (sparql_result_to_df sparql_result) graph.bindings)),
        log := [] }
    else
      { result := .ok (.raw sparql_result), log := [] }

/-- Outcome of one rdflib graph.serialize(f, format="turtle", base=base)
call writing through an already opened file object: the full serialized
content on success; on an internal failure, the bytes flushed to the file
before the exception plus the exception text; or a failure of open() itself
with no bytes written. In the first two cases serialization ran and its
compute_qname(generate=True) calls may have bound generated ns1-style
prefixes on the graph's own namespace manager for namespaces not already
bound; those generated bindings are carried in the outcome (empty when open
failed, since serialization never started). -/
inductive SerializeOutcome where
  | ok : String → List (String × String) → SerializeOutcome
  | failAfter : String → String → List (String × String) → SerializeOutcome
  | openFail : String → SerializeOutcome
deriving DecidableEq, Repr

/-- Prefix bindings the serializer generated and bound on the graph during
one serialize call: none when open() itself failed. -/
def genOf : SerializeOutcome → List (String × String)
  | .ok _ gen => gen
  | .failAfter _ _ gen => gen
  | .openFail _ => []

/-- Filesystem model: a map from path to file content. -/
structure FS where
  files : List (String × String)
deriving DecidableEq, Repr

/-- Store content at a path, replacing any previous content. -/
def fsWrite (fs : FS) (path content : String) : FS :=
  { files := (path, content) :: fs.files.filter (fun pq => pq.1 != path) }

/-- Content currently stored at a path. -/
def fsRead (fs : FS) (path : String) : Option String :=
  (fs.files.find? (fun pq => pq.1 == path)).map Prod.snd

/-- Models rdflib Graph.bind(prefix, namespace) with its default
override=True, replace=False policy: bind the pair when the prefix is free
or already bound to the same stem; when the prefix is taken by a different
stem, rdflib keeps the old binding and invents a fresh prefix for the new
stem. -/
def bindNs (g : Graph) (pfx ns : String) : Graph :=
  match g.bindings.find? (fun pq => pq.1 == pfx) with
  | Option.none => { g with bindings := (pfx, ns) :: g.bindings }
  | some pq =>
    if pq.2 == ns then g
    else { g with bindings := (pfx ++ "1", ns) :: g.bindings }

/-- Outcome of write_ttl: the unit return or the raised error, the
filesystem after the call, and the state of the graph after the call. -/
structure WriteOutcome where
  result : Except KgError Unit
  fs : FS
  graphAfter : Graph
deriving Repr

/-- ttl_helper.write_ttl: if default_ns is given, graph.bind("", default_ns)
first (a persistent mutation of the graph's namespace manager); then
open(filename, "wb") — which truncates the target — and graph.serialize into
it; any exception in the open/serialize block is wrapped in
UserException(f"Could not write graph to filename: ex.") chained to the
original. The serializer oracle receives the graph (after the bind) and the
base IRI; whatever prefix bindings it generated (genOf of its outcome) end
up appended on the graph's namespace manager alongside the explicit bind. -/
def write_ttl (ser : Graph → Option String → SerializeOutcome)
    (fs : FS) (graph : Graph) (filename : String)
    (default_ns : Option String) (base : Option String) : WriteOutcome :=
  let g := match default_ns with
    | some ns => bindNs graph "" ns
    | Option.none => graph
  let out := ser g base
  let gAfter : Graph := { g with bindings := g.bindings ++ genOf out }
  match out with
  | .ok content _ =>
    { result := .ok (), fs := fsWrite fs filename content, graphAfter := gAfter }
  | .failAfter written msg _ =>
    { result := .error (.userException ("Could not write graph to " ++ filename ++ ": " ++ msg ++ ".") (some msg)),
      fs := fsWrite fs filename written, graphAfter := gAfter }
  | .openFail msg =>
    { result := .error (.userException ("Could not write graph to " ++ filename ++ ": " ++ msg ++ ".") (some msg)),
      fs := fs, graphAfter := gAfter }

/-- Result of one reasoner subprocess invocation (subprocess.run with
capture_output): exit status, captured stdout and stderr, and the content
the process wrote to the output path (none when it wrote nothing, leaving
the empty temporary file in place). -/
structure ReasonerRun where
  returncode : Int
  stdout : String
  stderr : String
  output : Option String
deriving DecidableEq, Repr

/-- Exact argument vector reasoner_helper.infer_file passes to
subprocess.run. -/
def robotArgs (robot input_file output_file reasoner : String) : List String :=
  [robot, "reason",
   "--input", input_file,
   "--output", output_file,
   "--create-new-ontology", "true",
   "--equivalent-classes-allowed", "all",
   "--include-indirect", "true",
   "--axiom-generators",
   "\"SubClass EquivalentClass DisjointClasses ClassAssertion PropertyAssertion\"",
   "--reasoner", reasoner]

/-- reasoner_helper.infer_file: read the ROBOT environment variable; if it
is unset, log and raise Exception("ROBOT environment variable not set");
otherwise run the subprocess and DISCARD its result — the source never
inspects the exit status, stdout or stderr (the run record is returned here
only so that the caller's model can see what the process wrote to the output
file). -/
def infer_file (robotEnv : Option String) (run : List String → ReasonerRun)
    (input_file output_file reasoner : String) : Except KgError ReasonerRun :=
  match robotEnv with
  | Option.none => .error (.exception "ROBOT environment variable not set")
  | some robot => .ok (run (robotArgs robot input_file output_file reasoner))

/-- Filesystem actions performed by infer_graph itself: temporary-file
creation by NamedTemporaryFile, a write of serialized content, and the
deletion performed when a NamedTemporaryFile context manager exits. -/
inductive FsEvent where
  | createTemp : String → FsEvent
  | writeFile : String → String → FsEvent
  | deleteTemp : String → FsEvent
deriving DecidableEq, Repr

/-- Outcome of infer_graph: the returned graph or the raised error, the
trace of infer_graph's own filesystem actions in order, and the state of the
input graph after the call. The source never touches the input's triple set,
but graph.serialize may bind generated prefixes on the input graph's own
namespace manager (rdflib compute_qname with generate=True, for
predicate/datatype namespaces not already bound), and that mutation survives
the call on every exit path. -/
structure InferOutcome where
  result : Except KgError Graph
  events : List FsEvent
  inputAfter : Graph
deriving Repr

/-- reasoner_helper.infer_graph: result = Graph(); create the input and
output temporary files; graph.serialize(input_file.name); infer_file (which
checks ROBOT only at this point and ignores the subprocess exit status);
result.parse(output_file.name) — parsing whatever content the subprocess
wrote, or the still-empty temporary file when it wrote nothing; both
temporary files are deleted on every exit path by the context managers.
serializeTtl is the rdflib Turtle serializer oracle: it yields the
serialized content together with the prefix bindings it generated and bound
on the input graph's namespace manager (compute_qname with generate=True
binds an ns1-style prefix for every namespace not already bound) — the
serialize runs before the ROBOT check, so those bindings persist on the
input graph on every exit path; the triple set is never touched. parseTtl
is the rdflib Turtle parser oracle; a parse failure propagates as a foreign
rdflib exception. -/
def infer_graph (robotEnv : Option String) (run : List String → ReasonerRun)
    (serializeTtl : Graph → String × List (String × String))
    (parseTtl : String → Except String Graph)
    (inName outName : String) (graph : Graph) (reasoner : String) : InferOutcome :=
  let ser := serializeTtl graph
  let inputSer : Graph := { graph with bindings := graph.bindings ++ ser.2 }
  let ev := [FsEvent.createTemp inName, FsEvent.createTemp outName,
             FsEvent.writeFile inName ser.1]
  match infer_file robotEnv run inName outName reasoner with
  | .error e =>
    { result := .error e,
      events := ev ++ [FsEvent.deleteTemp outName, FsEvent.deleteTemp inName],
      inputAfter := inputSer }
  | .ok runRes =>
    match parseTtl (runRes.output.getD "") with
    | .error pe =>
      { result := .error (.foreign pe),
        events := ev ++ [FsEvent.deleteTemp outName, FsEvent.deleteTemp inName],
        inputAfter := inputSer }
    | .ok parsed =>
      { result := .ok parsed,
        events := ev ++ [FsEvent.deleteTemp outName, FsEvent.deleteTemp inName],
        inputAfter := inputSer }

/-- Example triple used as concrete input. -/
def tEx : RDFTerm × RDFTerm × RDFTerm :=
  (RDFTerm.iri "http://ex.org/s", RDFTerm.iri "http://ex.org/p", RDFTerm.iri "http://ex.org/o")

/-- Example one-triple graph with no namespace bindings. -/
def gEx : Graph := { triples := [tEx], bindings := [] }

/-- Concrete Turtle serializer oracle instance generating no new prefix
bindings (every namespace of the serialized graph already bound). -/
def serStub : Graph → String × List (String × String) :=
  fun _ => ("serialized turtle", [])

/-- Concrete Turtle serializer oracle instance for a graph such as gEx whose
predicate stem http://ex.org/ is unbound: rdflib's compute_qname with
generate=True binds the generated prefix ns1 for it on the input graph's
namespace manager during serialization. -/
def serGen : Graph → String × List (String × String) :=
  fun _ => ("serialized turtle", [("ns1", "http://ex.org/")])

/-- Concrete Turtle parser oracle instance; it reflects the rdflib behavior
the spec states for the empty document (an empty document parses to zero
triples) and rejects everything else. -/
def parseEmptyOnly : String → Except String Graph :=
  fun s => if s = "" then Except.ok emptyGraph else Except.error "not turtle"

/-- Concrete reasoner subprocess oracle instance: clean exit, empty output. -/
def runStub : List String → ReasonerRun :=
  fun _ => { returncode := 0, stdout := "", stderr := "", output := some "" }

/-- Claim C1 (code bug): with the ROBOT path configured but the reasoner
subprocess exiting with status 1 and writing nothing to the output file,
infer_graph returns normally with the empty graph parsed from the untouched
empty temporary file — the exit status and stderr are never inspected and no
ReasoningError is raised. -/
theorem C1_nonzero_exit_returns_empty_graph :
    (infer_graph (some "/opt/robot")
      (fun _ => { returncode := 1, stdout := "", stderr := "reasoner crashed", output := Option.none })
      serStub parseEmptyOnly "tmp_in.ttl" "tmp_out.ttl" gEx "hermit").result
      = Except.ok emptyGraph := by
  rfl

/-- Claim C2 (counterexample): with ROBOT unset, infer_graph does raise the
configuration error, but only after both temporary files have been created
and the input graph has been serialized to disk — refuting "performs no
filesystem writes (no temporary file is created and the graph is not
serialized before the check)". -/
theorem C2_counterexample :
    ((infer_graph Option.none runStub serStub parseEmptyOnly "tmp_in.ttl" "tmp_out.ttl" gEx "hermit").result
        = Except.error (KgError.exception "ROBOT environment variable not set"))
    ∧ FsEvent.createTemp "tmp_in.ttl"
        ∈ (infer_graph Option.none runStub serStub parseEmptyOnly "tmp_in.ttl" "tmp_out.ttl" gEx "hermit").events
    ∧ FsEvent.writeFile "tmp_in.ttl" (serStub gEx).1
        ∈ (infer_graph Option.none runStub serStub parseEmptyOnly "tmp_in.ttl" "tmp_out.ttl" gEx "hermit").events :=
  ⟨rfl, by decide, by decide⟩

/-- Claim C2 (amended): when the reasoner executable path is not configured,
infer_graph raises the configuration error (Exception "ROBOT environment
variable not set"), but only after creating both temporary files and
serializing the input graph into the input temporary file; both temporary
files are then deleted before the exception propagates. -/
theorem C2_config_error_after_temp_writes (run : List String → ReasonerRun)
    (ser : Graph → String × List (String × String))
    (parse : String → Except String Graph)
    (inName outName : String) (g : Graph) (r : String) :
    (infer_graph Option.none run ser parse inName outName g r).result
        = Except.error (KgError.exception "ROBOT environment variable not set")
    ∧ (infer_graph Option.none run ser parse inName outName g r).events
        = [FsEvent.createTemp inName, FsEvent.createTemp outName,
           FsEvent.writeFile inName (ser g).1,
           FsEvent.deleteTemp outName, FsEvent.deleteTemp inName] :=
  ⟨rfl, rfl⟩

/-- Claim C3 (code bug): a reasoner run that exits cleanly but writes an
output omitting the input triples (exactly what --create-new-ontology true
requests, and what any failed run produces) makes infer_graph return
normally a graph that is NOT a superset of the input: the code returns the
parse of the reasoner output verbatim and never adds or checks the input
triples. -/
theorem C3_normal_return_not_superset :
    ((infer_graph (some "/opt/robot")
        (fun _ => { returncode := 0, stdout := "ok", stderr := "", output := some "" })
        serStub parseEmptyOnly "tmp_in.ttl" "tmp_out.ttl" gEx "hermit").result
      = Except.ok emptyGraph)
    ∧ tEx ∈ gEx.triples
    ∧ tEx ∉ emptyGraph.triples :=
  ⟨rfl, by decide, by decide⟩

/-- Claim C4 (counterexample): on a normal run over the example graph —
whose predicate stem http://ex.org/ is bound to no prefix — serializing the
input for the reasoner binds the generated prefix ns1 on the input graph's
own namespace manager (rdflib compute_qname with generate=True), so the
input graph's namespace mapping after the call differs from the one before:
the claim's "g's triple set and namespace mapping are identical before and
after the call" is false. -/
theorem C4_counterexample :
    ((infer_graph (some "/opt/robot") runStub serGen parseEmptyOnly "tmp_in.ttl" "tmp_out.ttl" gEx "hermit").result
        = Except.ok emptyGraph)
    ∧ (infer_graph (some "/opt/robot") runStub serGen parseEmptyOnly "tmp_in.ttl" "tmp_out.ttl" gEx "hermit").inputAfter.bindings
        = [("ns1", "http://ex.org/")]
    ∧ (infer_graph (some "/opt/robot") runStub serGen parseEmptyOnly "tmp_in.ttl" "tmp_out.ttl" gEx "hermit").inputAfter
        ≠ gEx :=
  ⟨rfl, rfl, by decide⟩

/-- Claim C4 (amended): infer_graph returns a newly created Graph (built by
parsing the reasoner output into a fresh empty graph) and never touches the
input graph's triple set, on every exit path (missing configuration, parse
failure, or success); however, serializing the input may persistently bind
serializer-generated prefixes on the input graph's namespace manager for
namespaces not already bound, so the input's namespace mapping after the
call is exactly its old bindings extended by those generated ones — not
necessarily identical to the mapping before the call. -/
theorem C4_infer_preserves_triples (robotEnv : Option String)
    (run : List String → ReasonerRun)
    (ser : Graph → String × List (String × String))
    (parse : String → Except String Graph) (inName outName : String)
    (g : Graph) (r : String) :
    (infer_graph robotEnv run ser parse inName outName g r).inputAfter.triples = g.triples
    ∧ (infer_graph robotEnv run ser parse inName outName g r).inputAfter.bindings
        = g.bindings ++ (ser g).2 := by
  cases robotEnv with
  | none => exact ⟨rfl, rfl⟩
  | some robot =>
    simp only [infer_graph, infer_file]
    cases parse ((run (robotArgs robot inName outName r)).output.getD "") <;> exact ⟨rfl, rfl⟩

/-- Concrete serializer-call outcome failing midway with some bytes flushed. -/
def serFailMid : Graph → Option String → SerializeOutcome :=
  fun _ _ => SerializeOutcome.failAfter "half-written bytes" "disk full" []

/-- Claim C5 (counterexample): write_ttl opens the target with open(fn,"wb")
— truncating it — and serializes straight into it; when serialization fails
midway the UserException is raised, but the file is left holding the bytes
flushed before the failure, which are neither the previous content nor a
complete serialization. -/
theorem C5_counterexample :
    ((write_ttl serFailMid { files := [("out.ttl", "old full content")] } gEx "out.ttl" Option.none Option.none).result
        = Except.error (KgError.userException "Could not write graph to out.ttl: disk full." (some "disk full")))
    ∧ fsRead (write_ttl serFailMid { files := [("out.ttl", "old full content")] } gEx "out.ttl" Option.none Option.none).fs "out.ttl"
        = some "half-written bytes"
    ∧ some "half-written bytes" ≠ some "old full content" :=
  ⟨rfl, rfl, by decide⟩

/-- Claim C5 (amended): a serialization failure makes write_ttl raise
UserException wrapping the underlying error text, but the write is not
atomic: the target was already truncated and now holds exactly the bytes
flushed before the failure; there is no temporary-path-and-rename step. -/
theorem C5_write_error_leaves_flushed_bytes (fs : FS) (g : Graph) (fn : String)
    (dns base : Option String) (written msg : String) (gen : List (String × String)) :
    ((write_ttl (fun _ _ => SerializeOutcome.failAfter written msg gen) fs g fn dns base).result
        = Except.error (KgError.userException ("Could not write graph to " ++ fn ++ ": " ++ msg ++ ".") (some msg)))
    ∧ (write_ttl (fun _ _ => SerializeOutcome.failAfter written msg gen) fs g fn dns base).fs
        = fsWrite fs fn written := by
  cases dns <;> exact ⟨rfl, rfl⟩

/-- Helper: a string strictly shorter than q cannot contain q as a substring. -/
theorem not_carries_of_shorter (m q : String) (h : m.length < q.length) :
    ¬ ∃ pre post : String, m = pre ++ q ++ post := by
  rintro ⟨pre, post, rfl⟩
  simp [String.length_append] at h
  omega

/-- Concrete syntactically invalid query, longer than both error texts. -/
def badQuery : String := "THIS STRING IS CERTAINLY NOT A WELL FORMED SPARQL QUERY TEXT"

/-- Concrete engine oracle instance that rejects every query. -/
def failEngine : Graph → String → Except String SPARQLResult :=
  fun _ _ => Except.error "pyparsing rejected input"

/-- Claim C6 (counterexample): on an invalid query both sparql_ask and
sparql_select raise UserException, but its message is the fixed text
"The SPARQL query failed to execute." and neither that message nor the
chained engine error contains the offending query text. -/
theorem C6_counterexample :
    ((sparql_ask failEngine gEx badQuery).result
        = Except.error (KgError.userException "The SPARQL query failed to execute." (some "pyparsing rejected input")))
    ∧ ((sparql_select failEngine gEx badQuery true).result
        = Except.error (KgError.userException "The SPARQL query failed to execute." (some "pyparsing rejected input")))
    ∧ ¬ (∃ pre post : String, "The SPARQL query failed to execute." = pre ++ badQuery ++ post)
    ∧ ¬ (∃ pre post : String, "pyparsing rejected input" = pre ++ badQuery ++ post) :=
  ⟨rfl, rfl, not_carries_of_shorter _ _ (by decide), not_carries_of_shorter _ _ (by decide)⟩

/-- Claim C6 (amended): whenever the engine rejects a query, sparql_ask and
sparql_select both raise UserException with the fixed message "The SPARQL
query failed to execute.", chained to the engine's exception; the offending
query text is written to the error log, not carried in the exception. -/
theorem C6_query_error_fixed_message
    (engine : Graph → String → Except String SPARQLResult)
    (g : Graph) (q e : String) (h : engine g q = Except.error e) :
    (sparql_ask engine g q).result
        = Except.error (KgError.userException "The SPARQL query failed to execute." (some e))
    ∧ ("\r\n" ++ q) ∈ (sparql_ask engine g q).log
    ∧ (sparql_select engine g q true).result
        = Except.error (KgError.userException "The SPARQL query failed to execute." (some e))
    ∧ ("\r\n" ++ q) ∈ (sparql_select engine g q true).log := by
  simp [sparql_ask, sparql_select, h]

/-- Witness for C6_query_error_fixed_message at a concrete engine and query. -/
theorem C6_query_error_fixed_message_witness :
    failEngine gEx "SELECT ?" = Except.error "pyparsing rejected input"
    ∧ ((sparql_ask failEngine gEx "SELECT ?").result
        = Except.error (KgError.userException "The SPARQL query failed to execute." (some "pyparsing rejected input"))
      ∧ ("\r\n" ++ "SELECT ?") ∈ (sparql_ask failEngine gEx "SELECT ?").log
      ∧ (sparql_select failEngine gEx "SELECT ?" true).result
        = Except.error (KgError.userException "The SPARQL query failed to execute." (some "pyparsing rejected input"))
      ∧ ("\r\n" ++ "SELECT ?") ∈ (sparql_select failEngine gEx "SELECT ?" true).log) :=
  ⟨rfl, C6_query_error_fixed_message failEngine gEx "SELECT ?" "pyparsing rejected input" rfl⟩

/-- Example DataFrame holding a single URIRef cell under the example stem. -/
def dfEx : DataFrame := { columns := ["x"], rows := [[PyVal.pyuri "http://ex.org/a"]] }

/-- Concrete serializer-call outcome succeeding with full content and no
generated bindings (every serialized term under an already-bound stem). -/
def serOk : Graph → Option String → SerializeOutcome :=
  fun _ _ => SerializeOutcome.ok "serialized turtle" []

/-- Claim C7 (counterexample): write_ttl with a defaultNamespace performs
graph.bind("", ns), which persists on the graph after the call; normalizing
the same result table against the graph's namespace manager afterwards gives
a different table than before the call (":a" instead of
"<http://ex.org/a>"), refuting "for that serialization only" and "every
normalized result produced from g is the same as if write had not been
called". -/
theorem C7_counterexample :
    ((write_ttl serOk { files := [] } gEx "f.ttl" (some "http://ex.org/") Option.none).graphAfter.bindings
        = [("", "http://ex.org/")])
    ∧ normalize_uris dfEx (write_ttl serOk { files := [] } gEx "f.ttl" (some "http://ex.org/") Option.none).graphAfter.bindings
        ≠ normalize_uris dfEx gEx.bindings :=
  ⟨rfl, by decide⟩

/-- Claim C7 (amended): supplying a defaultNamespace binds it persistently
on the graph as the unprefixed namespace (when "" was previously unbound);
the graph's triple set — and hence raw query answers — is unchanged, and the
namespace mapping after the call is exactly the "" binding followed by the
old bindings and whatever prefixes the serializer itself generated; the
binding is not scoped to the serialization, so later normalization against
the graph's namespace manager can render IRIs under that stem differently. -/
theorem C7_default_ns_binding_persists
    (ser : Graph → Option String → SerializeOutcome) (fs : FS) (g : Graph)
    (fn ns : String) (base : Option String)
    (h : g.bindings.find? (fun pq => pq.1 == "") = Option.none) :
    (write_ttl ser fs g fn (some ns) base).graphAfter.triples = g.triples
    ∧ (write_ttl ser fs g fn (some ns) base).graphAfter.bindings
        = ("", ns) :: (g.bindings ++ genOf (ser (bindNs g "" ns) base)) := by
  have hb : bindNs g "" ns = { g with bindings := ("", ns) :: g.bindings } := by
    simp [bindNs, h]
  simp only [write_ttl, hb]
  cases ser { triples := g.triples, bindings := ("", ns) :: g.bindings } base <;> exact ⟨rfl, rfl⟩

/-- Witness for C7_default_ns_binding_persists at a concrete graph. -/
theorem C7_default_ns_binding_persists_witness :
    gEx.bindings.find? (fun pq => pq.1 == "") = Option.none
    ∧ ((write_ttl serOk { files := [] } gEx "g.ttl" (some "http://w.org/") Option.none).graphAfter.triples = gEx.triples
      ∧ (write_ttl serOk { files := [] } gEx "g.ttl" (some "http://w.org/") Option.none).graphAfter.bindings
          = ("", "http://w.org/") :: (gEx.bindings ++ genOf (serOk (bindNs gEx "" "http://w.org/") Option.none))) :=
  ⟨rfl, C7_default_ns_binding_persists serOk { files := [] } gEx "g.ttl" "http://w.org/" Option.none rfl⟩

/-- Example integer literal term. -/
def tInt : RDFTerm := RDFTerm.lit "7" (some xsdInteger) Option.none

/-- Example SELECT result with two declared variables. -/
def rEx : SPARQLResult :=
  { vars := ["a", "b"], bindings := [[("a", tEx.1), ("b", tInt)]], askAnswer := false }

/-- Same result with the internal binding order reversed. -/
def sEx : SPARQLResult :=
  { vars := ["a", "b"], bindings := [[("b", tInt), ("a", tEx.1)]], askAnswer := false }

/-- Helper: the two example binding orders agree on every variable lookup. -/
theorem lookup_swap_ex :
    ∀ v, lookupVar [("a", tEx.1), ("b", tInt)] v = lookupVar [("b", tInt), ("a", tEx.1)] v := by
  intro v
  by_cases h1 : v = "a"
  · subst h1; rfl
  · by_cases h2 : v = "b"
    · subst h2; rfl
    · have e1 : ("a" == v) = false := beq_eq_false_iff_ne.mpr (Ne.symm h1)
      have e2 : ("b" == v) = false := beq_eq_false_iff_ne.mpr (Ne.symm h2)
      simp [lookupVar, List.find?, e1, e2]

/-- Claim C8 (confirmed): the table built from a SELECT result has exactly
the result's declared variables as columns, in declared order (also after
normalize_uris, which leaves columns untouched); every row has one cell per
declared variable; and the table is unchanged when the engine returns the
bindings of each row in a different internal order (same lookups). -/
theorem C8_columns_declared_order (r s : SPARQLResult) (nsm : List (String × String))
    (hvars : s.vars = r.vars)
    (hlook : List.Forall₂ (fun b b' => ∀ v, lookupVar b v = lookupVar b' v) r.bindings s.bindings) :
    (sparql_result_to_df r).columns = r.vars
    ∧ (normalize_uris (sparql_result_to_df r) nsm).columns = r.vars
    ∧ (∀ row ∈ (sparql_result_to_df r).rows, row.length = r.vars.length)
    ∧ sparql_result_to_df s = sparql_result_to_df r := by
  have hmap : ∀ (bs bs' : List (List (String × RDFTerm))),
      List.Forall₂ (fun b b' => ∀ v, lookupVar b v = lookupVar b' v) bs bs' →
      bs'.map (fun b => r.vars.map (fun v => get_value (lookupVar b v)))
        = bs.map (fun b => r.vars.map (fun v => get_value (lookupVar b v))) := by
    intro bs bs' hf
    induction hf with
    | nil => rfl
    | @cons b b' l1 l2 hbb htail ih =>
      simp only [List.map_cons, ih]
      have hfun : (fun v => get_value (lookupVar b' v)) = (fun v => get_value (lookupVar b v)) :=
        funext fun v => by rw [hbb v]
      rw [hfun]
  refine ⟨rfl, rfl, ?_, ?_⟩
  · intro row hrow
    simp only [sparql_result_to_df, List.mem_map] at hrow
    obtain ⟨b, _, rfl⟩ := hrow
    simp
  · unfold sparql_result_to_df
    rw [hvars]
    exact congrArg (fun rows => DataFrame.mk r.vars rows) (hmap r.bindings s.bindings hlook)

/-- Witness for C8_columns_declared_order: a concrete result with the
bindings of its one row listed in swapped order yields the identical table. -/
theorem C8_columns_declared_order_witness :
    (sEx.vars = rEx.vars
      ∧ List.Forall₂ (fun b b' => ∀ v, lookupVar b v = lookupVar b' v) rEx.bindings sEx.bindings)
    ∧ ((sparql_result_to_df rEx).columns = rEx.vars
      ∧ (normalize_uris (sparql_result_to_df rEx) []).columns = rEx.vars
      ∧ (∀ row ∈ (sparql_result_to_df rEx).rows, row.length = rEx.vars.length)
      ∧ sparql_result_to_df sEx = sparql_result_to_df rEx) :=
  ⟨⟨rfl, List.Forall₂.cons lookup_swap_ex List.Forall₂.nil⟩,
   C8_columns_declared_order rEx sEx [] rfl (List.Forall₂.cons lookup_swap_ex List.Forall₂.nil)⟩

/-- Claim C9 (counterexample): a result cell holding an IRI whose stem
matches no bound namespace is normalized to the IRI wrapped in angle
brackets, not to the bare absolute IRI string. -/
theorem C9_counterexample :
    (normalize_uris (sparql_result_to_df
        { vars := ["x"], bindings := [[("x", RDFTerm.iri "http://unbound.example/x")]], askAnswer := false }) []).rows
      = [[PyVal.pystr "<http://unbound.example/x>"]]
    ∧ [[PyVal.pystr "<http://unbound.example/x>"]] ≠ [[PyVal.pystr "http://unbound.example/x"]] :=
  ⟨rfl, by decide⟩

/-- Claim C9 (amended): the per-cell normalization pipeline (get_value then
convert_uri) maps an unbound variable to None, an integer-datatyped literal
to a native int, a literal with no datatype to a string, an IRI whose stem
is bound to prefix p to the prefixed form p:local, and an IRI with no
matching stem to the absolute IRI wrapped in angle brackets. -/
theorem C9_cell_normalization (nsm : List (String × String))
    (lex u ns l p u' : String) (i : Int)
    (hint : lexToInt? lex = some i)
    (hsplit : splitUri u = some (ns, l)) (hp : pfxFor nsm ns = some p)
    (hnm : ∀ nsl : String × String, splitUri u' = some nsl → pfxFor nsm nsl.1 = Option.none) :
    convert_uri nsm (get_value Option.none) = PyVal.pynone
    ∧ convert_uri nsm (get_value (some (RDFTerm.lit lex (some xsdInteger) Option.none))) = PyVal.pyint i
    ∧ convert_uri nsm (get_value (some (RDFTerm.lit lex Option.none Option.none))) = PyVal.pystr lex
    ∧ convert_uri nsm (get_value (some (RDFTerm.iri u))) = PyVal.pystr (p ++ ":" ++ l)
    ∧ convert_uri nsm (get_value (some (RDFTerm.iri u'))) = PyVal.pystr ("<" ++ u' ++ ">") := by
  refine ⟨rfl, ?_, rfl, ?_, ?_⟩
  · show convert_uri nsm (toPython (RDFTerm.lit lex (some xsdInteger) Option.none)) = PyVal.pyint i
    simp [toPython, hint, convert_uri]
  · show PyVal.pystr (normalizeUri nsm u) = PyVal.pystr (p ++ ":" ++ l)
    simp [normalizeUri, hsplit, hp]
  · show PyVal.pystr (normalizeUri nsm u') = PyVal.pystr ("<" ++ u' ++ ">")
    cases hs : splitUri u' with
    | none => simp [normalizeUri, hs]
    | some nsl => simp [normalizeUri, hs, hnm nsl hs]

/-- Witness for C9_cell_normalization at concrete terms and bindings. -/
theorem C9_cell_normalization_witness :
    (lexToInt? "42" = some 42
      ∧ splitUri "http://ex.org/a" = some ("http://ex.org/", "a")
      ∧ pfxFor [("ex", "http://ex.org/")] "http://ex.org/" = some "ex"
      ∧ (∀ nsl : String × String, splitUri "http://unbound.example/x" = some nsl →
          pfxFor [("ex", "http://ex.org/")] nsl.1 = Option.none))
    ∧ (convert_uri [("ex", "http://ex.org/")] (get_value Option.none) = PyVal.pynone
      ∧ convert_uri [("ex", "http://ex.org/")] (get_value (some (RDFTerm.lit "42" (some xsdInteger) Option.none))) = PyVal.pyint 42
      ∧ convert_uri [("ex", "http://ex.org/")] (get_value (some (RDFTerm.lit "42" Option.none Option.none))) = PyVal.pystr "42"
      ∧ convert_uri [("ex", "http://ex.org/")] (get_value (some (RDFTerm.iri "http://ex.org/a"))) = PyVal.pystr ("ex" ++ ":" ++ "a")
      ∧ convert_uri [("ex", "http://ex.org/")] (get_value (some (RDFTerm.iri "http://unbound.example/x"))) = PyVal.pystr ("<" ++ "http://unbound.example/x" ++ ">")) := by
  have h4 : ∀ nsl : String × String, splitUri "http://unbound.example/x" = some nsl →
      pfxFor [("ex", "http://ex.org/")] nsl.1 = Option.none := by
    intro nsl hn
    have hs : splitUri "http://unbound.example/x" = some ("http://unbound.example/", "x") := by decide
    rw [hs] at hn
    cases hn
    decide
  exact ⟨⟨by decide, by decide, by decide, h4⟩,
    C9_cell_normalization [("ex", "http://ex.org/")] "42" "http://ex.org/a" "http://ex.org/" "a" "ex"
      "http://unbound.example/x" 42 (by decide) (by decide) (by decide) h4⟩

/-- Claim C10 (confirmed): with to_df = false, sparql_select returns the
engine's raw query result verbatim — no DataFrame conversion and no IRI
normalization are applied on that path. -/
theorem C10_raw_result (engine : Graph → String → Except String SPARQLResult)
    (g : Graph) (q : String) (r : SPARQLResult) (h : engine g q = Except.ok r) :
    (sparql_select engine g q false).result = Except.ok (SelectReturn.raw r)
    ∧ (sparql_select engine g q false).log = [] := by
  simp [sparql_select, h]

/-- Witness for C10_raw_result at a concrete engine and result. -/
theorem C10_raw_result_witness :
    ((fun _ _ => Except.ok rEx) : Graph → String → Except String SPARQLResult) gEx "SELECT ?a ?b WHERE " = Except.ok rEx
    ∧ ((sparql_select (fun _ _ => Except.ok rEx) gEx "SELECT ?a ?b WHERE " false).result
        = Except.ok (SelectReturn.raw rEx)
      ∧ (sparql_select (fun _ _ => Except.ok rEx) gEx "SELECT ?a ?b WHERE " false).log = []) :=
  ⟨rfl, C10_raw_result (fun _ _ => Except.ok rEx) gEx "SELECT ?a ?b WHERE " rEx rfl⟩

end KG
